import Mathlib

/-!
Verification development for the vector-space analytics engine of the
monitored-functions dashboard (backend/app/dashboard/drift.py,
backend/app/dashboard/semantic_analysis.py and the drift helpers of
backend/app/core/weaviate_adapter.py).

Modelling conventions:
* Python floats are modelled as rationals (ℚ); `round(x, n)` is modelled by
  `round4` / `round2` (round half to even, as Python does).
* The Weaviate vector store, the OpenAI embedding call and the
  scikit-learn numeric kernels (PCA, KMeans, NearestNeighbors) are external
  collaborators.  Fetch results, embedding results and k-means label
  assignments enter the embedded functions as explicit arguments or oracle
  functions; exact brute-force nearest-neighbour selection (what
  sklearn.neighbors.NearestNeighbors computes on these data sizes) is
  implemented directly over a caller-supplied distance function `d`.
* Python exceptions are modelled with `Except String`; a `try/except`
  boundary becomes a `match` on the `Except` value.
* Python's stable sorts (`list.sort`, `sorted`) are modelled with
  `List.insertionSort`, which is stable and total.
-/

/-- Round half to even, the tie-breaking rule of Python's `round`. -/
def roundHalfEven (x : ℚ) : ℤ :=
  if x - ⌊x⌋ < 1/2 then ⌊x⌋
  else if 1/2 < x - ⌊x⌋ then ⌊x⌋ + 1
  else if ⌊x⌋ % 2 = 0 then ⌊x⌋ else ⌊x⌋ + 1

/-- Model of Python's `round(x, 4)`. -/
def round4 (x : ℚ) : ℚ := (roundHalfEven (x * 10000) : ℚ) / 10000

/-- Model of Python's `round(x, 2)`. -/
def round2 (x : ℚ) : ℚ := (roundHalfEven (x * 100) : ℚ) / 100

/-- Mean of a list of rationals, `0` for the empty list — the
`sum(xs) / len(xs) if xs else 0.0` idiom of the source. -/
def ratMean (l : List ℚ) : ℚ := if l.isEmpty then 0 else l.sum / (l.length : ℚ)

/-- Dot product of two vectors (used to realise cosine distance on unit
vectors in concrete inputs). -/
def dotProd (v w : List ℚ) : ℚ := (List.zipWith (· * ·) v w).sum

/-- Cosine distance `1 - cos` for unit vectors: on unit vectors the cosine
similarity is the dot product, so no square roots are needed.  All concrete
vectors used in this file are unit vectors (Pythagorean pairs). -/
def unitCosDist (v w : List ℚ) : ℚ := 1 - dotProd v w

/-- Descending order by a rational key (Python `sort(key=…, reverse=True)`). -/
def descQRel (key : α → ℚ) (a b : α) : Prop := key b ≤ key a

/-- Ascending order by a rational key (Python `sort(key=…)`). -/
def ascQRel (key : α → ℚ) (a b : α) : Prop := key a ≤ key b

/-- Descending order by a natural-number key. -/
def descNRel (key : α → ℕ) (a b : α) : Prop := key b ≤ key a

instance (key : α → ℚ) : DecidableRel (descQRel key) :=
  fun a b => inferInstanceAs (Decidable (key b ≤ key a))

instance (key : α → ℚ) : DecidableRel (ascQRel key) :=
  fun a b => inferInstanceAs (Decidable (key a ≤ key b))

instance (key : α → ℕ) : DecidableRel (descNRel key) :=
  fun a b => inferInstanceAs (Decidable (key b ≤ key a))

instance (key : α → ℚ) : IsTotal α (descQRel key) :=
  ⟨fun a b => le_total (key b) (key a)⟩

instance (key : α → ℚ) : IsTrans α (descQRel key) :=
  ⟨fun _ _ _ h1 h2 => le_trans h2 h1⟩

instance (key : α → ℚ) : IsTotal α (ascQRel key) :=
  ⟨fun a b => le_total (key a) (key b)⟩

instance (key : α → ℚ) : IsTrans α (ascQRel key) :=
  ⟨fun _ _ _ h1 h2 => le_trans h1 h2⟩

instance (key : α → ℕ) : IsTotal α (descNRel key) :=
  ⟨fun a b => Nat.le_total (key b) (key a)⟩

instance (key : α → ℕ) : IsTrans α (descNRel key) :=
  ⟨fun _ _ _ h1 h2 => Nat.le_trans h2 h1⟩

/-- Stable descending sort by a rational key. -/
def sortDescBy (key : α → ℚ) (l : List α) : List α := List.insertionSort (descQRel key) l

/-- Stable ascending sort by a rational key. -/
def sortAscBy (key : α → ℚ) (l : List α) : List α := List.insertionSort (ascQRel key) l

/-- Stable descending sort by a natural-number key. -/
def sortDescByN (key : α → ℕ) (l : List α) : List α := List.insertionSort (descNRel key) l

/-- Keep only the first occurrence of each key — the
`seen`-set de-duplication loop of the source. -/
def dedupBy (key : α → β) [DecidableEq β] : List α → List α
  | [] => []
  | a :: rest => a :: dedupBy key (rest.filter (fun b => key b ≠ key a))
termination_by l => l.length
decreasing_by
  exact Nat.lt_succ_of_le (List.length_filter_le _ _)

/-- Sequential effectful map over a list with `Except`-propagation: models a
Python `for` loop whose body may raise, run inside a single `try`.  Items
computed before the failure are discarded, as the Python loop's local list
is when the exception escapes. -/
def exceptMapList (f : α → Except ε β) : List α → Except ε (List β)
  | [] => .ok []
  | a :: rest =>
    match f a with
    | .error e => .error e
    | .ok b =>
      match exceptMapList f rest with
      | .error e => .error e
      | .ok bs => .ok (b :: bs)

/-- Record fetched from the vector store.  Fields mirror the Weaviate object
properties the services read; `vec` is the `obj.vector.get("default")`
payload (`none` when vectors were not included or absent). -/
structure WvObj where
  uuid : ℕ := 0
  function_name : String := ""
  span_id : String := ""
  status : String := ""
  duration_ms : ℚ := 0
  timestamp_utc : ℕ := 0
  error_code : String := ""
  error_message : Option String := none
  input_preview : String := ""
  return_value : Option String := none
  output_preview : String := ""
  original_uuid : String := ""
  vec : Option (List ℚ) := none
deriving DecidableEq

/-- Truthiness of `obj.vector and obj.vector.get("default")`: the vector must
be present and non-empty (an empty Python list is falsy). -/
def usableVec : Option (List ℚ) → Bool
  | some v => !v.isEmpty
  | none => false

/-- The embedding vector of an object known to be usable. -/
def getVec (o : WvObj) : List ℚ := o.vec.getD []

/-- The `objects_with_vectors` filter applied by every analysis. -/
def usableObjs (objs : List WvObj) : List WvObj := objs.filter (fun o => usableVec o.vec)

/-! ## Drift analyzer (backend/app/dashboard/drift.py) -/

/-- Drift status of one function, `drift.py` lines 63-102. -/
inductive DriftStatus
  | INSUFFICIENT_DATA
  | NO_VECTOR
  | NORMAL
  | ANOMALY
deriving DecidableEq

/-- One entry of the drift summary (`items.append({...})`). -/
structure DriftItem where
  function_name : String
  status : DriftStatus
  avg_distance : ℚ
  sample_count : ℕ
  threshold : ℚ
deriving DecidableEq

/-- Return value of `DriftService.get_drift_summary`. -/
structure DriftSummary where
  items : List DriftItem
  total : ℕ
  error : Option String
deriving DecidableEq

/-- One object of a `near_vector` response together with its
`metadata.distance` (absent when distance metadata is missing). -/
structure Neighbor where
  uuid : ℕ
  dist : Option ℚ
deriving DecidableEq

/-- Distances kept by the neighbour loop of `get_drift_summary`
(lines 95-98): every returned object whose uuid differs from the probe's and
whose distance metadata is present. -/
def neighborDists (nbrs : List Neighbor) (probeUuid : ℕ) : List ℚ :=
  nbrs.filterMap (fun o => if o.uuid ≠ probeUuid then o.dist else none)

/-- Body of the per-function loop of `DriftService.get_drift_summary`
(lines 52-110).  `fetchRecent` is the store query for the 10 most recent
executions of the function (vectors included, sorted by `timestamp_utc`
descending); `nearF` is the `near_vector` query (limit 6) over the
function's executions.  Either store call may raise. -/
def driftProcessOne (fetchRecent : String → Except String (List WvObj))
    (nearF : String → List ℚ → Except String (List Neighbor))
    (fname : String) : Except String DriftItem :=
  match fetchRecent fname with
  | .error e => .error e
  | .ok recent =>
    if recent.length < 2 then
      .ok ⟨fname, .INSUFFICIENT_DATA, 0, recent.length, 3/10⟩
    else
      match recent with
      | [] => .ok ⟨fname, .INSUFFICIENT_DATA, 0, 0, 3/10⟩
      | latest :: _ =>
        if usableVec latest.vec = false then
          .ok ⟨fname, .NO_VECTOR, 0, recent.length, 3/10⟩
        else
          match nearF fname (getVec latest) with
          | .error e => .error e
          | .ok nbrs =>
            let avg := ratMean (neighborDists nbrs latest.uuid)
            .ok ⟨fname, if avg > 3/10 then DriftStatus.ANOMALY else DriftStatus.NORMAL,
                 round4 avg, recent.length, 3/10⟩

/-- The function-name filter of lines 45-49: keep non-empty names, and when
the `functions` argument is truthy (present and non-empty) only names it
contains. -/
def filterFnames (functions : Option (List String)) (groups : List String) : List String :=
  groups.filter (fun f =>
    decide (f ≠ "") && (match functions with
      | none => true
      | some fs => fs.isEmpty || fs.contains f))

/-- `DriftService.get_drift_summary` (lines 31-119).  The whole loop over
function names runs inside one `try`; the `except` boundary returns an empty
item list with a top-level error string. -/
def getDriftSummary (aggregateGroups : Except String (List String))
    (fetchRecent : String → Except String (List WvObj))
    (nearF : String → List ℚ → Except String (List Neighbor))
    (functions : Option (List String)) : DriftSummary :=
  match aggregateGroups with
  | .error e => ⟨[], 0, some e⟩
  | .ok groups =>
    match exceptMapList (driftProcessOne fetchRecent nearF)
        (filterFnames functions groups) with
    | .error e => ⟨[], 0, some e⟩
    | .ok items => ⟨items, items.length, none⟩

/-- Payload of `check_semantic_drift` / `simulate_drift_check`
(weaviate_adapter.py lines 535-587): Python dicts with varying key sets are
modelled as one structure with optional fields. -/
structure SimResult where
  is_drift : Bool := false
  avg_distance : ℚ := 0
  nearest_uuid : Option ℕ := none
  k : Option ℕ := none
  threshold : Option ℚ := none
  message : Option String := none
  input_text : Option String := none
  function_name : Option String := none
  error : Option String := none
deriving DecidableEq

/-- `check_semantic_drift` (weaviate_adapter.py lines 535-570).  `nearK` is
the `near_vector` query with limit `k` over the function's executions. -/
def checkSemanticDrift (nearK : List ℚ → Except String (List Neighbor))
    (vector : List ℚ) (threshold : ℚ) (k : ℕ) : Except String SimResult :=
  match nearK vector with
  | .error e => .error e
  | .ok [] =>
    .ok { is_drift := false, avg_distance := 0, nearest_uuid := none,
          message := some "No existing data to compare" }
  | .ok (first :: rest) =>
    let avg := ratMean ((first :: rest).filterMap (·.dist))
    .ok { is_drift := decide (avg > threshold), avg_distance := round4 avg,
          nearest_uuid := some first.uuid, k := some k, threshold := some threshold }

/-- Truthiness of `not openai_api_key`: missing or empty credential. -/
def keyMissing : Option String → Bool
  | none => true
  | some s => s.isEmpty

/-- `simulate_drift_check` (weaviate_adapter.py lines 573-587): raises
`ValueError("OpenAI API key required for drift check")` when no credential
is configured, otherwise embeds the text (`embedF`, itself fallible) and
runs `check_semantic_drift`, echoing the inputs. -/
def simulateDriftCheck (embedF : String → Except String (List ℚ))
    (nearK : List ℚ → Except String (List Neighbor))
    (text function_name : String) (threshold : ℚ) (k : ℕ)
    (key : Option String) : Except String SimResult :=
  if keyMissing key then
    .error "OpenAI API key required for drift check"
  else
    match embedF text with
    | .error e => .error e
    | .ok v =>
      match checkSemanticDrift nearK v threshold k with
      | .error e => .error e
      | .ok r => .ok { r with input_text := some text, function_name := some function_name }

/-- `DriftService.simulate` (drift.py lines 121-141): the `except` boundary
turns any raised exception into `{"is_drift": False, "avg_distance": 0.0,
"error": str(e)}`. -/
def driftSimulate (embedF : String → Except String (List ℚ))
    (nearK : List ℚ → Except String (List Neighbor))
    (text function_name : String) (threshold : ℚ) (k : ℕ)
    (key : Option String) : SimResult :=
  match simulateDriftCheck embedF nearK text function_name threshold k key with
  | .ok r => r
  | .error e => { is_drift := false, avg_distance := 0, error := some e }

/-! ## Store-level model for the drift fixed-window check

The two store queries of `get_drift_summary` are realised over an explicit
store population so that the code path and the specified behaviour can be
compared on one concrete store state. -/

/-- The `fetch_objects` call of `get_drift_summary` (lines 56-61): the
function's executions sorted by `timestamp_utc` descending, first 10. -/
def fetchRecentStore (pop : List WvObj) (fname : String) : List WvObj :=
  (sortDescByN (·.timestamp_utc) (pop.filter (fun o => o.function_name = fname))).take 10

/-- The `near_vector` call (lines 88-93): the `limit` nearest objects of the
function's whole (vector-indexed) population under the store's cosine
distance `d`, with distance metadata. -/
def nearVectorStore (d : List ℚ → List ℚ → ℚ) (pop : List WvObj) (fname : String)
    (v : List ℚ) (limit : ℕ) : List Neighbor :=
  ((sortAscBy (fun o => d v (getVec o))
      (pop.filter (fun o => o.function_name = fname && usableVec o.vec))).take limit).map
    (fun o => ⟨o.uuid, some (d v (getVec o))⟩)

/-- The per-function drift entry computed by the code against an explicit
store population. -/
def driftEntryStore (d : List ℚ → List ℚ → ℚ) (pop : List WvObj) (fname : String) :
    Except String DriftItem :=
  driftProcessOne (fun f => .ok (fetchRecentStore pop f))
    (fun f v => .ok (nearVectorStore d pop f v 6)) fname

/-- Follows the words of claim C4 (spec §4.4): designate the newest recent
record as the probe, compute the distances from the probe to up to 5 of the
*remaining recent* vectors (probe excluded, the nearest ones), average them,
and classify ANOMALY iff the average exceeds 0.3. -/
def driftEntryClaimC4 (d : List ℚ → List ℚ → ℚ) (pop : List WvObj) (fname : String) :
    DriftItem :=
  let recent := fetchRecentStore pop fname
  match recent with
  | [] => ⟨fname, .INSUFFICIENT_DATA, 0, 0, 3/10⟩
  | [_] => ⟨fname, .INSUFFICIENT_DATA, 0, 1, 3/10⟩
  | latest :: rest =>
    if usableVec latest.vec = false then ⟨fname, .NO_VECTOR, 0, recent.length, 3/10⟩
    else
      let probe := getVec latest
      let ds := (sortAscBy id
        (((rest.filter (fun o => usableVec o.vec)).map (fun o => d probe (getVec o))))).take 5
      let avg := ratMean ds
      ⟨fname, if avg > 3/10 then .ANOMALY else .NORMAL, round4 avg, recent.length, 3/10⟩

/-! ## Semantic analysis service (backend/app/dashboard/semantic_analysis.py) -/

/-- One point of the input-distribution scatter (lines 73-83). -/
structure ScatterPoint where
  x : ℚ
  y : ℚ
  span_id : String
  function_name : String
  status : String
  duration_ms : ℚ
deriving DecidableEq

/-- `n_components = min(2, vectors.shape[0], vectors.shape[1])` (line 69);
the second shape component is the shared dimensionality of the vectors. -/
def nComponentsOf (vs : List (List ℚ)) : ℕ := min 2 (min vs.length (vs.headD []).length)

/-- `SemanticAnalysisService.get_input_scatter` (lines 37-85).  `pcaF` is the
`PCA(n_components).fit_transform` kernel: for each input vector one
coordinate row, in order. -/
def getInputScatter (pcaF : ℕ → List (List ℚ) → List (List ℚ))
    (objs : List WvObj) : List ScatterPoint :=
  if objs.isEmpty then [] else
  let ows := usableObjs objs
  if ows.length < 2 then [] else
  let vectors := ows.map getVec
  let nc := nComponentsOf vectors
  let coords := pcaF nc vectors
  ows.enum.map (fun p =>
    let row := coords.getD p.1 []
    { x := round4 (row.getD 0 0),
      y := if nc = 2 then round4 (row.getD 1 0) else 0,
      span_id := p.2.span_id, function_name := p.2.function_name,
      status := p.2.status, duration_ms := p.2.duration_ms })

/-- One cluster of the bottleneck analysis (lines 143-149). -/
structure BCluster where
  cluster_id : ℕ
  avg_duration_ms : ℚ
  count : ℕ
  representative_input : String
  is_bottleneck : Bool
deriving DecidableEq

/-- The k-means labels of the bottleneck / error clustering runs: `kml` is
the `KMeans(n_clusters=actual_k, random_state=42, n_init=10).fit_predict`
kernel, one label per input vector. -/
def bcLabels (kml : ℕ → List (List ℚ) → List ℕ) (objs : List WvObj) (k : ℕ) : List ℕ :=
  kml (min k (usableObjs objs).length) ((usableObjs objs).map getVec)

/-- Members of cluster `cid` (the `mask` selection, lines 132-134). -/
def clusterMembers (kml : ℕ → List (List ℚ) → List ℕ) (objs : List WvObj)
    (k cid : ℕ) : List WvObj :=
  (((usableObjs objs).zip (bcLabels kml objs k)).filter (fun p => p.2 = cid)).map (·.1)

/-- Mean duration of cluster `cid` (line 136). -/
def clusterAvgDur (kml : ℕ → List (List ℚ) → List ℕ) (objs : List WvObj)
    (k cid : ℕ) : ℚ :=
  ratMean ((clusterMembers kml objs k cid).map (·.duration_ms))

/-- Global mean duration over all clustered vectors (line 128). -/
def globalAvgDur (objs : List WvObj) : ℚ :=
  ratMean ((usableObjs objs).map (·.duration_ms))

/-- One cluster record of the bottleneck analysis (lines 131-149); the
representative is `props.get("function_name","") or props.get("span_id","")`
of the first member. -/
def mkBCluster (kml : ℕ → List (List ℚ) → List ℕ) (objs : List WvObj)
    (k cid : ℕ) : BCluster :=
  let members := clusterMembers kml objs k cid
  let avgDur := clusterAvgDur kml objs k cid
  { cluster_id := cid,
    avg_duration_ms := round2 avgDur,
    count := members.length,
    representative_input :=
      match members with
      | [] => ""
      | r :: _ => if r.function_name ≠ "" then r.function_name else r.span_id,
    is_bottleneck := decide (globalAvgDur objs * 2 < avgDur) }

/-- `SemanticAnalysisService.get_bottleneck_clusters` (lines 91-152).  When
fewer usable vectors than `n_clusters` exist the function returns an empty
list (line 118-119); otherwise the clusters are sorted descending by their
(rounded) mean duration. -/
def getBottleneckClusters (kml : ℕ → List (List ℚ) → List ℕ) (objs : List WvObj)
    (n_clusters : ℕ) : List BCluster :=
  let ows := usableObjs objs
  if ows.length < n_clusters then []
  else
    sortDescBy (·.avg_duration_ms)
      ((List.range (min n_clusters ows.length)).map (mkBCluster kml objs n_clusters))

/-- One cluster of the error clustering (lines 485-531). -/
structure ErrCluster where
  cluster_id : ℕ
  count : ℕ
  representative_error : String
  error_codes : List String
  functions : List String
deriving DecidableEq

/-- Representative error: the first member whose truncated
`error_message` (default "Unknown error") is non-empty — the
`if not representative_error` loop of lines 522-523. -/
def firstNonEmptyMsg : List WvObj → String
  | [] => ""
  | o :: rest =>
    let m := (o.error_message.getD "Unknown error").take 300
    if m ≠ "" then m else firstNonEmptyMsg rest

/-- Ascending lexicographic sort of strings (Python `sorted` on a set). -/
def sortStr (l : List String) : List String := List.insertionSort (· ≤ ·) l

/-- Singleton cluster built for one object when fewer vectors than
`n_clusters` exist (lines 488-496). -/
def mkErrSingleton (i : ℕ) (o : WvObj) : ErrCluster :=
  { cluster_id := i, count := 1,
    representative_error := (o.error_message.getD "Unknown error").take 300,
    error_codes := if o.error_code ≠ "" then [o.error_code] else [],
    functions := if o.function_name ≠ "" then [o.function_name] else [] }

/-- One cluster record of the error clustering main branch (lines 506-531);
error codes and function names are collected as sets and returned sorted. -/
def mkErrCluster (kml : ℕ → List (List ℚ) → List ℕ) (objs : List WvObj)
    (k cid : ℕ) : ErrCluster :=
  let members := clusterMembers kml objs k cid
  { cluster_id := cid, count := members.length,
    representative_error := firstNonEmptyMsg members,
    error_codes :=
      sortStr ((members.filterMap
        (fun o => if o.error_code ≠ "" then some o.error_code else none)).dedup),
    functions :=
      sortStr ((members.filterMap
        (fun o => if o.function_name ≠ "" then some o.function_name else none)).dedup) }

/-- `SemanticAnalysisService.get_error_clusters` (lines 463-534).  With fewer
usable vectors than `n_clusters`, each vector becomes its own singleton
cluster; otherwise k-means clusters are returned sorted descending by member
count. -/
def getErrorClusters (kml : ℕ → List (List ℚ) → List ℕ) (objs : List WvObj)
    (n_clusters : ℕ) : List ErrCluster :=
  let ows := usableObjs objs
  if ows.length < n_clusters then
    ows.enum.map (fun p => mkErrSingleton p.1 p.2)
  else
    sortDescByN (·.count)
      ((List.range (min n_clusters ows.length)).map (mkErrCluster kml objs n_clusters))

/-! ## Nearest-neighbour analyses (coverage, hallucination, diversity) -/

/-- Distance from a query vector to its single nearest reference vector —
`NearestNeighbors(n_neighbors=1, metric="cosine")` fitted on the reference
set (exact brute-force minimum over the caller-supplied metric `d`). -/
def nearestGoldenDist (d : List ℚ → List ℚ → ℚ) (gvecs : List (List ℚ))
    (v : List ℚ) : ℚ :=
  match gvecs.map (fun g => d v g) with
  | [] => 0
  | a :: rest => rest.foldl min a

/-- One point of the coverage scatter (lines 240-266). -/
structure CoveragePoint where
  x : ℚ
  y : ℚ
  is_golden : Bool
  span_id : String
  function_name : String
  status : String
  duration_ms : ℚ
deriving DecidableEq

/-- Return value of `get_golden_coverage` (lines 268-273). -/
structure CoverageResult where
  coverage_score : ℚ
  total_executions : ℕ
  golden_count : ℕ
  scatter : List CoveragePoint
deriving DecidableEq

/-- Number of execution vectors whose nearest-reference cosine distance is
below 0.5 (`np.sum(distances.flatten() < 0.5)`, line 236); `0` when no
reference vectors exist. -/
def coveredCount (d : List ℚ → List ℚ → ℚ) (eUs gUs : List WvObj) : ℕ :=
  if gUs.isEmpty then 0
  else ((eUs.filter
    (fun o => nearestGoldenDist d (gUs.map getVec) (getVec o) < 1/2))).length

/-- `SemanticAnalysisService.get_golden_coverage` (lines 158-273).
`goldenObjs` is the reference fetch result (empty when the golden collection
does not exist). -/
def getGoldenCoverage (d : List ℚ → List ℚ → ℚ)
    (pcaF : ℕ → List (List ℚ) → List (List ℚ))
    (execObjs goldenObjs : List WvObj) : CoverageResult :=
  let eUs := usableObjs execObjs
  let gUs := usableObjs goldenObjs
  if eUs.isEmpty then
    { coverage_score := 0, total_executions := 0, golden_count := gUs.length, scatter := [] }
  else
    let allVecs := eUs.map getVec ++ gUs.map getVec
    let nc := nComponentsOf allVecs
    let coords := pcaF nc allVecs
    let score :=
      if gUs.isEmpty then 0
      else round4 ((coveredCount d eUs gUs : ℚ) / (eUs.length : ℚ))
    let mkPoint := fun (i : ℕ) (isG : Bool) (o : WvObj) =>
      let row := coords.getD i []
      { x := round4 (row.getD 0 0),
        y := if nc = 2 then round4 (row.getD 1 0) else 0,
        is_golden := isG,
        span_id := if isG then (if o.span_id ≠ "" then o.span_id else o.original_uuid)
                   else o.span_id,
        function_name := o.function_name, status := o.status,
        duration_ms := o.duration_ms : CoveragePoint }
    { coverage_score := score, total_executions := eUs.length, golden_count := gUs.length,
      scatter := eUs.enum.map (fun p => mkPoint p.1 false p.2) ++
                 gUs.enum.map (fun p => mkPoint (eUs.length + p.1) true p.2) }

/-- One hallucination candidate (lines 446-454). -/
structure HallucinationItem where
  span_id : String
  function_name : String
  distance : ℚ
  duration_ms : ℚ
  timestamp_utc : ℕ
  input_preview : String
  output_preview : String
deriving DecidableEq

/-- Mean distance from vector `i` to its `k` nearest *other* vectors of the
batch (`np.mean(distances[:, 1:], axis=1)`, lines 433-439, with
`k = min(5, n-1)`): the `k` smallest distances to the other members, exact
brute force over the metric `d`. -/
def meanKDist (d : List ℚ → List ℚ → ℚ) (vecs : List (List ℚ)) (i : ℕ) : ℚ :=
  let v := vecs.getD i []
  let others := (vecs.enum.filter (fun p => p.1 ≠ i)).map (fun p => d v p.2)
  ratMean ((sortAscBy id others).take (min 5 (vecs.length - 1)))

/-- Every usable object paired with its mean k-nearest-neighbour distance. -/
def hallucinationScored (d : List ℚ → List ℚ → ℚ) (objs : List WvObj) :
    List (WvObj × ℚ) :=
  let ows := usableObjs objs
  let vecs := ows.map getVec
  ows.enum.map (fun p => (p.2, meanKDist d vecs p.1))

/-- Candidate record built for an outlier object (lines 446-454). -/
def mkHallucinationItem (o : WvObj) (dist : ℚ) : HallucinationItem :=
  { span_id := o.span_id, function_name := o.function_name, distance := dist,
    duration_ms := o.duration_ms, timestamp_utc := o.timestamp_utc,
    input_preview := o.input_preview.take 200,
    output_preview := (o.return_value.getD o.output_preview).take 200 }

/-- `SemanticAnalysisService.get_hallucination_candidates` (lines 397-457):
fewer than 5 usable vectors yield the empty list; otherwise objects whose
mean k-NN distance strictly exceeds the threshold are returned sorted
descending by (rounded) distance, truncated to `limit`. -/
def getHallucinationCandidates (d : List ℚ → List ℚ → ℚ) (objs : List WvObj)
    (threshold : ℚ) (limit : ℕ) : List HallucinationItem :=
  if (usableObjs objs).length < 5 then [] else
  let cands := ((hallucinationScored d objs).filter (fun p => threshold < p.2)).map
    (fun p => mkHallucinationItem p.1 (round4 p.2))
  (sortDescBy (·.distance) cands).take limit

/-- One diversity-recommendation candidate (lines 335-345). -/
structure RecCandidate where
  uuid : ℕ
  span_id : String
  function_name : String
  status : String
  duration_ms : ℚ
  timestamp_utc : ℕ
  distance_to_nearest_golden : ℚ
  candidate_type : String
  score : ℚ
deriving DecidableEq

/-- Indexed candidate list of `recommend_with_diversity` (lines 323-345):
for each usable execution its (rounded) distance to the nearest golden
vector.  The index stands for Python dict object identity. -/
def recCandidatesOf (d : List ℚ → List ℚ → ℚ) (gvecs : List (List ℚ))
    (eUs : List WvObj) : List (ℕ × WvObj × ℚ) :=
  eUs.enum.map (fun p => (p.1, p.2, round4 (nearestGoldenDist d gvecs (getVec p.2))))

/-- `max(...) if candidates else 1.0` followed by the `max_dist == 0`
guard (lines 371-373). -/
def maxRDist (cands : List (ℕ × WvObj × ℚ)) : ℚ :=
  match cands with
  | [] => 1
  | c :: rest =>
    let m := (rest.map (fun t => t.2.2)).foldl max c.2.2
    if m = 0 then 1 else m

/-- The discovery selection: first ⌊limit/2⌋ of the candidates sorted
descending by distance (lines 364-367). -/
def discoverySel (d : List ℚ → List ℚ → ℚ) (gvecs : List (List ℚ))
    (eUs : List WvObj) (limit : ℕ) : List (ℕ × WvObj × ℚ) :=
  (sortDescBy (fun t => t.2.2) (recCandidatesOf d gvecs eUs)).take (limit / 2)

/-- The steady selection: first `limit - ⌊limit/2⌋` of the descending list
re-sorted ascending (line 368). -/
def steadySel (d : List ℚ → List ℚ → ℚ) (gvecs : List (List ℚ))
    (eUs : List WvObj) (limit : ℕ) : List (ℕ × WvObj × ℚ) :=
  (sortAscBy (fun t => t.2.2)
    (sortDescBy (fun t => t.2.2) (recCandidatesOf d gvecs eUs))).take (limit - limit / 2)

/-- Final record of one merged candidate.  The two labelling loops of
lines 375-381 mutate the shared dicts in place, the steady loop last: an
item selected by both lists therefore carries the STEADY label and score. -/
def mkRecFinal (steadyIdx discIdx : List ℕ) (maxd : ℚ) (t : ℕ × WvObj × ℚ) :
    RecCandidate :=
  let o := t.2.1
  let rd := t.2.2
  { uuid := o.uuid, span_id := o.span_id, function_name := o.function_name,
    status := o.status, duration_ms := o.duration_ms, timestamp_utc := o.timestamp_utc,
    distance_to_nearest_golden := rd,
    candidate_type :=
      if t.1 ∈ steadyIdx then "STEADY"
      else if t.1 ∈ discIdx then "DISCOVERY" else "",
    score :=
      if t.1 ∈ steadyIdx then round4 (1 - rd / maxd)
      else if t.1 ∈ discIdx then round4 (rd / maxd) else 0 }

/-- All-discovery record used when no golden data exists (lines 347-361). -/
def mkRecNoGolden (o : WvObj) : RecCandidate :=
  { uuid := o.uuid, span_id := o.span_id, function_name := o.function_name,
    status := o.status, duration_ms := o.duration_ms, timestamp_utc := o.timestamp_utc,
    distance_to_nearest_golden := 1, candidate_type := "DISCOVERY", score := 1 }

/-- `SemanticAnalysisService.recommend_with_diversity` (lines 279-391). -/
def recommendWithDiversity (d : List ℚ → List ℚ → ℚ)
    (execObjs goldenObjs : List WvObj) (limit : ℕ) : List RecCandidate :=
  let eUs := usableObjs execObjs
  let gvecs := (usableObjs goldenObjs).map getVec
  if eUs.isEmpty then []
  else if gvecs.isEmpty then (eUs.map mkRecNoGolden).take limit
  else
    let disc := discoverySel d gvecs eUs limit
    let steady := steadySel d gvecs eUs limit
    let maxd := maxRDist (recCandidatesOf d gvecs eUs)
    let merged := dedupBy (fun t => t.2.1.uuid) (disc ++ steady)
    (merged.map (mkRecFinal (steady.map (·.1)) (disc.map (·.1)) maxd)).take limit

/-- Follows the words of claim C6 (spec §4.3c): label the ⌊limit/2⌋
descending-list candidates DISCOVERY with score distance/max, label the
remaining ascending-list candidates STEADY with score 1 − distance/max,
merge discovery-then-steady, de-duplicate by identity keeping the first
occurrence, cap at `limit`. -/
def recommendClaimC6 (d : List ℚ → List ℚ → ℚ)
    (execObjs goldenObjs : List WvObj) (limit : ℕ) : List RecCandidate :=
  let eUs := usableObjs execObjs
  let gvecs := (usableObjs goldenObjs).map getVec
  if eUs.isEmpty then []
  else if gvecs.isEmpty then (eUs.map mkRecNoGolden).take limit
  else
    let cands := recCandidatesOf d gvecs eUs
    let maxd := maxRDist cands
    let mk := fun (ty : String) (sc : ℚ) (t : ℕ × WvObj × ℚ) =>
      { uuid := t.2.1.uuid, span_id := t.2.1.span_id,
        function_name := t.2.1.function_name, status := t.2.1.status,
        duration_ms := t.2.1.duration_ms, timestamp_utc := t.2.1.timestamp_utc,
        distance_to_nearest_golden := t.2.2, candidate_type := ty, score := sc
        : RecCandidate }
    let discR := ((sortDescBy (fun t => t.2.2) cands).take (limit / 2)).map
      (fun t => mk "DISCOVERY" (t.2.2 / maxd) t)
    let steadyR := ((sortAscBy (fun t => t.2.2) cands).take (limit - limit / 2)).map
      (fun t => mk "STEADY" (1 - t.2.2 / maxd) t)
    (dedupBy (·.uuid) (discR ++ steadyR)).take limit

/-! ## Concrete store states and oracle instances

Explicit inputs used by the witness and counterexample theorems below.
All concrete embedding vectors are unit vectors built from Pythagorean
pairs, so `unitCosDist` is their exact cosine distance. -/

/-- Near-vector oracle returning no neighbours. -/
def nfNone : String → List ℚ → Except String (List Neighbor) := fun _ _ => .ok []

/-- Recent-fetch oracle that fails for function "f" and succeeds (with no
records) for every other function. -/
def frC1 : String → Except String (List WvObj) :=
  fun f => if f = "f" then .error "boom" else .ok []

/-- Aggregate-groups oracle yielding two function names. -/
def aggC1 : Except String (List String) := .ok ["f", "g"]

/-- Recent-fetch oracle that always succeeds with no records. -/
def frOkEmpty : String → Except String (List WvObj) := fun _ => .ok []

/-- Embedding oracle returning a fixed unit vector. -/
def embed0 : String → Except String (List ℚ) := fun _ => .ok [1, 0]

/-- Near-vector oracle (by vector) returning no neighbours. -/
def near0 : List ℚ → Except String (List Neighbor) := fun _ => .ok []

/-- The payload `simulate_drift_check` produces over `embed0`/`near0` with a
configured key: the no-data message with echoed inputs. -/
def simOkPayload : SimResult :=
  { is_drift := false, avg_distance := 0,
    message := some "No existing data to compare",
    input_text := some "hello", function_name := some "fn" }

/-- Trivial k-means oracle (unused branch in the inputs it is applied to). -/
def kml0 : ℕ → List (List ℚ) → List ℕ := fun _ _ => []

/-- K-means oracle splitting three vectors into clusters {0,0,1}. -/
def kmlC8 : ℕ → List (List ℚ) → List ℕ := fun _ _ => [0, 0, 1]

/-- PCA oracle returning the origin for every sample (one row per input). -/
def pca0 : ℕ → List (List ℚ) → List (List ℚ) := fun _ vs => vs.map (fun _ => [0, 0])

/-- An ERROR execution record with a usable vector. -/
def objE1 : WvObj :=
  { uuid := 1, function_name := "f", span_id := "s1", error_code := "E1",
    error_message := some "boom happened", vec := some [1, 0] }

/-- Probe record of the drift fixed-window counterexample (newest). -/
def objP : WvObj := { uuid := 0, function_name := "f", timestamp_utc := 100, vec := some [1, 0] }

/-- Recent record `i` (i = 1..9) at cosine distance 2/5 from the probe. -/
def objR (i : ℕ) : WvObj :=
  { uuid := i, function_name := "f", timestamp_utc := 90 + i, vec := some [3/5, 4/5] }

/-- Old record `j` (j = 1..5) at cosine distance 1/5 from the probe. -/
def objO (j : ℕ) : WvObj :=
  { uuid := 10 + j, function_name := "f", timestamp_utc := j, vec := some [4/5, 3/5] }

/-- Store population for the drift fixed-window counterexample: for function
"f", a probe (newest), nine recent executions at cosine distance 2/5 from
the probe, and five old executions at cosine distance 1/5 from the probe. -/
def popC4 : List WvObj :=
  [objP, objR 1, objR 2, objR 3, objR 4, objR 5, objR 6, objR 7, objR 8, objR 9,
   objO 1, objO 2, objO 3, objO 4, objO 5]

/-- Two recent executions of one function, probe with a usable vector. -/
def objW1 : WvObj := { uuid := 1, function_name := "f", timestamp_utc := 2, vec := some [1, 0] }

/-- Older companion record of `objW1`. -/
def objW2 : WvObj := { uuid := 2, function_name := "f", timestamp_utc := 1, vec := some [0, 1] }

/-- Recent-fetch oracle returning the two records above. -/
def frW : String → Except String (List WvObj) := fun _ => .ok [objW1, objW2]

/-- Neighbour response: one other record at distance 1/10. -/
def nbrsW : List Neighbor := [⟨2, some (1/10)⟩]

/-- Near-vector oracle returning `nbrsW`. -/
def nfW : String → List ℚ → Except String (List Neighbor) := fun _ _ => .ok nbrsW

/-- Distance oracle on one-dimensional encodings: absolute difference of the
first coordinates (a valid metric table for the oracle-parameterised
analyses). -/
def dAbs : List ℚ → List ℚ → ℚ := fun v w => |v.headD 0 - w.headD 0|

/-- Execution record with a one-entry vector. -/
def mkV (u : ℕ) (x : ℚ) : WvObj := { uuid := u, vec := some [x] }

/-- Five usable executions, one a far outlier. -/
def objsC5 : List WvObj := [mkV 1 1, mkV 2 2, mkV 3 3, mkV 4 4, mkV 5 10]

/-- Distance table for the diversity counterexample: nearest-golden
distances 9/10, 1/2 and 1/10 for the three executions. -/
def dTable : List ℚ → List ℚ → ℚ :=
  fun v _ => if v = [1] then 9/10 else if v = [2] then 1/2 else 1/10

/-- Three usable executions for the diversity counterexample. -/
def execsC6 : List WvObj := [mkV 1 1, mkV 2 2, mkV 3 3]

/-- One golden record for the diversity counterexample. -/
def goldensC6 : List WvObj := [mkV 9 0]

/-- Three usable executions at cosine distances 0, 1 and 2 from the golden
vector. -/
def execsC7 : List WvObj :=
  [{ uuid := 1, vec := some [1, 0] }, { uuid := 2, vec := some [0, 1] },
   { uuid := 3, vec := some [-1, 0] }]

/-- One golden record with a usable unit vector. -/
def goldensC7 : List WvObj := [{ uuid := 9, vec := some [1, 0] }]

/-- Three usable executions with durations 10, 12 and 500 ms. -/
def objsC8 : List WvObj :=
  [{ uuid := 1, function_name := "a", duration_ms := 10, vec := some [1] },
   { uuid := 2, function_name := "b", duration_ms := 12, vec := some [1] },
   { uuid := 3, function_name := "c", duration_ms := 500, vec := some [2] }]

/-- Three usable one-dimensional vectors (only one principal component). -/
def objsC9 : List WvObj := [mkV 1 1, mkV 2 2, mkV 3 3]

/-- A single usable execution (below the minimum population of 5). -/
def objsC10 : List WvObj := [mkV 1 1]

/-! ## Helper lemmas -/

/-- Rounding half to even stays between floor and ceiling. -/
theorem roundHalfEven_bounds (x : ℚ) :
    (⌊x⌋ : ℤ) ≤ roundHalfEven x ∧ roundHalfEven x ≤ ⌈x⌉ := by
  unfold roundHalfEven
  split_ifs with h1 h2 h3
  · exact ⟨le_refl _, Int.floor_le_ceil x⟩
  · refine ⟨by omega, ?_⟩
    have hx : (⌊x⌋ : ℚ) < x := by linarith
    have h := Int.lt_ceil.mpr hx
    omega
  · exact ⟨le_refl _, Int.floor_le_ceil x⟩
  · refine ⟨by omega, ?_⟩
    have hr : (1:ℚ)/2 ≤ x - ⌊x⌋ := le_of_not_lt h1
    have hx : (⌊x⌋ : ℚ) < x := by linarith
    have h := Int.lt_ceil.mpr hx
    omega

/-- Rounding to four decimals maps the unit interval into itself. -/
theorem round4_unit {x : ℚ} (h0 : 0 ≤ x) (h1 : x ≤ 1) :
    0 ≤ round4 x ∧ round4 x ≤ 1 := by
  have hb := roundHalfEven_bounds (x * 10000)
  have hf : (0:ℤ) ≤ ⌊x * 10000⌋ := Int.floor_nonneg.mpr (by positivity)
  have hc : ⌈x * 10000⌉ ≤ (10000:ℤ) := by
    refine Int.ceil_le.mpr ?_
    push_cast
    linarith
  have hlo : (0:ℤ) ≤ roundHalfEven (x * 10000) := le_trans hf hb.1
  have hhi : roundHalfEven (x * 10000) ≤ 10000 := le_trans hb.2 hc
  unfold round4
  constructor
  · apply div_nonneg _ (by norm_num)
    exact_mod_cast hlo
  · rw [div_le_one (by norm_num)]
    exact_mod_cast hhi

/-- A successful `exceptMapList` run yields one output per input. -/
theorem exceptMapList_ok_length {f : α → Except ε β} :
    ∀ {l : List α} {bs : List β}, exceptMapList f l = .ok bs → bs.length = l.length := by
  intro l
  induction l with
  | nil =>
    intro bs h
    simp only [exceptMapList] at h
    cases h
    rfl
  | cons a rest ih =>
    intro bs h
    simp only [exceptMapList] at h
    cases hfa : f a with
    | error e => rw [hfa] at h; cases h
    | ok b =>
      rw [hfa] at h
      cases hrec : exceptMapList f rest with
      | error e => rw [hrec] at h; cases h
      | ok bs0 =>
        rw [hrec] at h
        cases h
        simp [ih hrec]

/-- De-duplication only keeps elements of the original list. -/
theorem dedupBy_subset (key : α → β) [DecidableEq β] :
    ∀ (l : List α), dedupBy key l ⊆ l
  | [] => by rw [dedupBy]; exact fun x hx => hx
  | a :: rest => by
    rw [dedupBy]
    intro x hx
    rcases List.mem_cons.mp hx with h | h
    · exact h ▸ List.mem_cons_self a rest
    · exact List.mem_cons_of_mem a
        (List.mem_of_mem_filter (dedupBy_subset key _ h))
termination_by l => l.length
decreasing_by
  exact Nat.lt_succ_of_le (List.length_filter_le _ _)

/-- After de-duplication the keys are pairwise distinct. -/
theorem dedupBy_nodup_keys (key : α → β) [DecidableEq β] :
    ∀ (l : List α), ((dedupBy key l).map key).Nodup
  | [] => by rw [dedupBy]; exact List.nodup_nil
  | a :: rest => by
    rw [dedupBy]
    rw [List.map_cons, List.nodup_cons]
    constructor
    · intro hmem
      rcases List.mem_map.mp hmem with ⟨b, hb, hkb⟩
      have hb2 := dedupBy_subset key _ hb
      have hfb := List.of_mem_filter hb2
      simp only [ne_eq, decide_not, Bool.not_eq_true', decide_eq_false_iff_not] at hfb
      exact hfb hkb
    · exact dedupBy_nodup_keys key _
termination_by l => l.length
decreasing_by
  exact Nat.lt_succ_of_le (List.length_filter_le _ _)

/-! ## Claim theorems -/

/-- C2: every drift-simulate call made without a configured
embedding-provider credential (`openai_api_key` is `None`) returns a payload
carrying the distinct configuration-error marker
"OpenAI API key required for drift check"; a payload produced by a
successful simulate run never carries an error marker, so a missing
credential is always distinguishable from a genuine "no drift" verdict. -/
theorem simulate_requires_key
    (embedF : String → Except String (List ℚ))
    (nearK : List ℚ → Except String (List Neighbor))
    (text fname : String) (threshold : ℚ) (k : ℕ) :
    (driftSimulate embedF nearK text fname threshold k none).error =
      some "OpenAI API key required for drift check" ∧
    (∀ key r, keyMissing key = false →
      simulateDriftCheck embedF nearK text fname threshold k key = .ok r →
      r.error = none) := by
  constructor
  · rfl
  · intro key r hk h
    unfold simulateDriftCheck at h
    rw [hk] at h
    simp only [Bool.false_eq_true, if_false] at h
    cases he : embedF text with
    | error e => rw [he] at h; cases h
    | ok v =>
      rw [he] at h
      dsimp only at h
      cases hc : checkSemanticDrift nearK v threshold k with
      | error e => rw [hc] at h; cases h
      | ok r0 =>
        rw [hc] at h
        have hr0 : r0.error = none := by
          unfold checkSemanticDrift at hc
          cases hn : nearK v with
          | error e => rw [hn] at hc; cases hc
          | ok objs =>
            rw [hn] at hc
            cases objs with
            | nil => cases hc; rfl
            | cons f0 rest => cases hc; rfl
        cases h
        simpa using hr0

/-- C2 witness: with the concrete oracles `embed0`/`near0`, the keyless call
carries the error marker, while the same call with a configured key yields
the ok-payload `simOkPayload`, whose error field is empty. -/
theorem simulate_requires_key_w :
    (driftSimulate embed0 near0 "hello" "fn" (3/10) 5 none).error =
      some "OpenAI API key required for drift check" ∧
    simOkPayload.error = none :=
  ⟨(simulate_requires_key embed0 near0 "hello" "fn" (3/10) 5).1,
   (simulate_requires_key embed0 near0 "hello" "fn" (3/10) 5).2
     (some "sk-test") simOkPayload (by decide) rfl⟩

/-- C1 counterexample: with a store where processing function "f" raises and
function "g" processes fine, the batch summary comes back empty — the entry
for "g", although computable (`driftProcessOne` succeeds on it), is not
returned, so one function's failure aborts the whole batch instead of being
reported per item. -/
theorem drift_summary_abort_cex :
    (driftProcessOne frC1 nfNone "g").isOk = true ∧
    getDriftSummary aggC1 frC1 nfNone none = ⟨[], 0, some "boom"⟩ :=
  ⟨rfl, rfl⟩

/-- C1 (amended): the drift-summary batch is not failure-isolated per
function: the whole per-function loop runs inside one exception boundary, so
the first failing function aborts the batch and the summary returns an empty
item list with a single top-level error; one entry per (filtered) function
is returned only when every function processes successfully. -/
theorem drift_summary_abort (agg : Except String (List String))
    (fr : String → Except String (List WvObj))
    (nf : String → List ℚ → Except String (List Neighbor))
    (functions : Option (List String)) :
    (∀ groups, agg = .ok groups →
      (getDriftSummary agg fr nf functions).error = none →
      (getDriftSummary agg fr nf functions).items.length =
        (filterFnames functions groups).length) ∧
    (∀ e, (getDriftSummary agg fr nf functions).error = some e →
      (getDriftSummary agg fr nf functions).items = [] ∧
      (getDriftSummary agg fr nf functions).total = 0) := by
  cases hag : agg with
  | error e =>
    refine ⟨fun groups hg => ?_, fun e' _ => ?_⟩
    · cases hg
    · simp [getDriftSummary]
  | ok groups =>
    cases hmap : exceptMapList (driftProcessOne fr nf) (filterFnames functions groups) with
    | error e =>
      refine ⟨fun groups' hg herr => ?_, fun e' _ => ?_⟩
      · cases hg
        simp [getDriftSummary, hmap] at herr
      · simp [getDriftSummary, hmap]
    | ok items =>
      refine ⟨fun groups' hg _ => ?_, fun e' he' => ?_⟩
      · cases hg
        simp only [getDriftSummary, hmap]
        exact exceptMapList_ok_length hmap
      · simp [getDriftSummary, hmap] at he'

/-- C1 witness: with all store calls succeeding the summary has one entry per
function; with the failing store of the counterexample it aborts to an empty
batch. -/
theorem drift_summary_abort_w :
    (getDriftSummary aggC1 frOkEmpty nfNone none).items.length = 2 ∧
    ((getDriftSummary aggC1 frC1 nfNone none).items = [] ∧
     (getDriftSummary aggC1 frC1 nfNone none).total = 0) :=
  ⟨((drift_summary_abort aggC1 frOkEmpty nfNone none).1 ["f", "g"] rfl
      (by decide)).trans (by decide),
   (drift_summary_abort aggC1 frC1 nfNone none).2 "boom" (by decide)⟩

/-- C4 (amended): per function the fixed-window drift check yields exactly
one of the four statuses, with threshold 0.3: INSUFFICIENT_DATA when fewer
than 2 recent records exist, NO_VECTOR when the newest (probe) record has no
usable vector, and otherwise ANOMALY iff the average of the distances
returned by the store's nearest-vector query (limit 6, probe excluded by
uuid) exceeds 0.3, else NORMAL, with `avg_distance` that average rounded to
4 decimals.  The averaged neighbours come from a nearest-vector query over
the function's entire execution population, not from the recent window. -/
theorem drift_entry_statuses (fr : String → Except String (List WvObj))
    (nf : String → List ℚ → Except String (List Neighbor)) (fname : String)
    (recent : List WvObj) (hr : fr fname = .ok recent) :
    (recent.length < 2 →
      driftProcessOne fr nf fname =
        .ok ⟨fname, .INSUFFICIENT_DATA, 0, recent.length, 3/10⟩) ∧
    (∀ latest rest, recent = latest :: rest → ¬ recent.length < 2 →
      usableVec latest.vec = false →
      driftProcessOne fr nf fname =
        .ok ⟨fname, .NO_VECTOR, 0, recent.length, 3/10⟩) ∧
    (∀ latest rest nbrs, recent = latest :: rest → ¬ recent.length < 2 →
      usableVec latest.vec = true → nf fname (getVec latest) = .ok nbrs →
      driftProcessOne fr nf fname =
        .ok ⟨fname,
          if ratMean (neighborDists nbrs latest.uuid) > 3/10
            then .ANOMALY else .NORMAL,
          round4 (ratMean (neighborDists nbrs latest.uuid)), recent.length, 3/10⟩) ∧
    (∀ item, driftProcessOne fr nf fname = .ok item →
      (item.status = .INSUFFICIENT_DATA ∨ item.status = .NO_VECTOR ∨
       item.status = .NORMAL ∨ item.status = .ANOMALY) ∧ item.threshold = 3/10) := by
  refine ⟨?_, ?_, ?_, ?_⟩
  · intro h2
    rw [driftProcessOne, hr]
    dsimp only
    rw [if_pos h2]
  · intro latest rest hrec h2 hv
    subst hrec
    rw [driftProcessOne, hr]
    dsimp only
    rw [if_neg h2]
    rw [if_pos hv]
  · intro latest rest nbrs hrec h2 hv hnb
    subst hrec
    rw [driftProcessOne, hr]
    dsimp only
    rw [if_neg h2]
    rw [if_neg (by simp [hv]), hnb]
  · intro item h
    refine ⟨?_, ?_⟩
    · rcases hs : item.status <;> simp [hs]
    · rw [driftProcessOne, hr] at h
      dsimp only at h
      split at h
      · cases h; rfl
      · split at h
        · cases h; rfl
        · split at h
          · cases h; rfl
          · split at h
            · cases h
            · cases h; rfl

/-- C4 witness: two recent records with a usable probe and one neighbour at
distance 1/10 yield a NORMAL verdict with the averaged distance. -/
theorem drift_entry_statuses_w :
    driftProcessOne frW nfW "f" = .ok ⟨"f", .NORMAL, 1/10, 2, 3/10⟩ := by
  have h := (drift_entry_statuses frW nfW "f" [objW1, objW2] rfl).2.2.1
    objW1 [objW2] nbrsW rfl (by decide) (by decide) rfl
  have hnd : neighborDists nbrsW objW1.uuid = [1/10] := by
    norm_num [neighborDists, nbrsW, objW1, List.filterMap_cons, List.filterMap_nil]
  rw [h, hnd]
  norm_num [ratMean, round4, roundHalfEven, List.isEmpty_cons]

/-- C4 counterexample: a store population for function "f" with a probe,
nine recent executions at cosine distance 2/5 from the probe, and five old
executions at cosine distance 1/5.  The code averages the store's globally
nearest vectors (the old ones, average 1/5) and reports NORMAL, while the
claim's average over the remaining *recent* vectors is 2/5 > 0.3, i.e.
ANOMALY: the claim's description of the averaged population is false on the
code. -/
theorem drift_entry_window_cex :
    (driftEntryStore unitCosDist popC4 "f").toOption =
      some ⟨"f", .NORMAL, 1/5, 10, 3/10⟩ ∧
    (driftEntryClaimC4 unitCosDist popC4 "f").status = .ANOMALY ∧
    (driftEntryClaimC4 unitCosDist popC4 "f").avg_distance = 2/5 := by
  have hfetch : fetchRecentStore popC4 "f" =
      [objP, objR 9, objR 8, objR 7, objR 6, objR 5, objR 4, objR 3, objR 2, objR 1] := by
    norm_num [fetchRecentStore, popC4, sortDescByN, List.insertionSort,
      List.orderedInsert, descNRel, objP, objR, objO, List.filter]
  have hnear : nearVectorStore unitCosDist popC4 "f" [1, 0] 6 =
      [⟨0, some 0⟩, ⟨11, some (1/5)⟩, ⟨12, some (1/5)⟩, ⟨13, some (1/5)⟩,
       ⟨14, some (1/5)⟩, ⟨15, some (1/5)⟩] := by
    norm_num [nearVectorStore, popC4, sortAscBy, List.insertionSort,
      List.orderedInsert, ascQRel, objP, objR, objO, List.filter, usableVec,
      getVec, unitCosDist, dotProd]
  refine ⟨?_, ?_, ?_⟩
  · rw [driftEntryStore, driftProcessOne]
    dsimp only
    rw [hfetch]
    norm_num [objP, usableVec, getVec]
    rw [hnear]
    norm_num [neighborDists, ratMean, round4, roundHalfEven, objP,
      List.filterMap]
    rfl
  · rw [driftEntryClaimC4, hfetch]
    norm_num [objP, objR, usableVec, getVec, unitCosDist, dotProd, sortAscBy,
      List.insertionSort, List.orderedInsert, ascQRel, ratMean, List.filter,
      round4, roundHalfEven]
  · rw [driftEntryClaimC4, hfetch]
    norm_num [objP, objR, usableVec, getVec, unitCosDist, dotProd, sortAscBy,
      List.insertionSort, List.orderedInsert, ascQRel, ratMean, List.filter,
      round4, roundHalfEven]

/-- C3 counterexample: one usable ERROR-style vector and a requested cluster
count of 5.  The bottleneck analysis returns the empty list instead of
degrading to one singleton cluster per vector (which would be 1 cluster), so
the claim fails for the bottleneck half. -/
theorem cluster_degrade_cex :
    getBottleneckClusters kml0 [objE1] 5 = [] ∧ (usableObjs [objE1]).length = 1 := by
  constructor
  · have h : (usableObjs [objE1]).length < 5 := by decide
    simp only [getBottleneckClusters, if_pos h]
  · decide

/-- C3 (amended): when fewer usable vectors than the requested cluster count
exist, error clustering degrades to exactly one singleton cluster per vector
(n clusters, each of count 1), while the bottleneck analysis instead returns
an empty list. -/
theorem cluster_degrade (kml : ℕ → List (List ℚ) → List ℕ) (objs : List WvObj)
    (k : ℕ) (h : (usableObjs objs).length < k) :
    (getErrorClusters kml objs k).length = (usableObjs objs).length ∧
    (∀ c ∈ getErrorClusters kml objs k, c.count = 1) ∧
    getBottleneckClusters kml objs k = [] := by
  refine ⟨?_, ?_, ?_⟩
  · simp only [getErrorClusters, if_pos h]
    simp [List.enum_length]
  · intro c hc
    simp only [getErrorClusters, if_pos h] at hc
    rcases List.mem_map.mp hc with ⟨p, _, hp⟩
    rw [← hp]
    rfl
  · simp only [getBottleneckClusters, if_pos h]

/-- C3 witness: the single-vector store degrades to one singleton error
cluster while the bottleneck analysis yields the empty list. -/
theorem cluster_degrade_w :
    (getErrorClusters kml0 [objE1] 5).length = 1 ∧
    getBottleneckClusters kml0 [objE1] 5 = [] :=
  ⟨((cluster_degrade kml0 [objE1] 5 (by decide)).1).trans (by decide),
   (cluster_degrade kml0 [objE1] 5 (by decide)).2.2⟩

/-- C8: every bottleneck-cluster result is sorted descending by the reported
mean duration, and a cluster's `is_bottleneck` flag is set iff the mean
duration of its members strictly exceeds twice the global mean duration of
all clustered vectors. -/
theorem bottleneck_flag_sorted (kml : ℕ → List (List ℚ) → List ℕ)
    (objs : List WvObj) (k : ℕ) :
    List.Sorted (descQRel (fun c : BCluster => c.avg_duration_ms))
      (getBottleneckClusters kml objs k) ∧
    ∀ r ∈ getBottleneckClusters kml objs k,
      (r.is_bottleneck = true ↔
        globalAvgDur objs * 2 < clusterAvgDur kml objs k r.cluster_id) := by
  by_cases h : (usableObjs objs).length < k
  · constructor
    · simp only [getBottleneckClusters, if_pos h]
      exact List.sorted_nil
    · intro r hr
      simp only [getBottleneckClusters, if_pos h] at hr
      exact absurd hr (List.not_mem_nil r)
  · constructor
    · simp only [getBottleneckClusters, if_neg h]
      exact List.sorted_insertionSort _ _
    · intro r hr
      simp only [getBottleneckClusters, if_neg h, sortDescBy] at hr
      rw [List.mem_insertionSort] at hr
      rcases List.mem_map.mp hr with ⟨cid, _, hcid⟩
      subst hcid
      simp only [mkBCluster, decide_eq_true_eq]

/-- C8 witness: durations [10, 12, 500] split into clusters {0,0,1}; the
flag of the high-duration cluster record (the first, the list being sorted
descending) agrees with the 2x-global-mean rule. -/
theorem bottleneck_flag_sorted_w :
    (⟨1, 500, 1, "c", true⟩ : BCluster).is_bottleneck = true ↔
      globalAvgDur objsC8 * 2 < clusterAvgDur kmlC8 objsC8 2 1 := by
  have heval : getBottleneckClusters kmlC8 objsC8 2 =
      [⟨1, 500, 1, "c", true⟩, ⟨0, 11, 2, "a", false⟩] := by
    norm_num [getBottleneckClusters, usableObjs, objsC8, usableVec, getVec,
      bcLabels, kmlC8, clusterMembers, clusterAvgDur, globalAvgDur, mkBCluster,
      ratMean, round2, roundHalfEven, sortDescBy, List.insertionSort,
      List.orderedInsert, descQRel, List.filter, List.range_succ,
      List.range_zero, List.zip, List.zipWith, List.isEmpty_cons]
    exact ⟨fun h => absurd h (by decide), fun h => absurd h (by decide)⟩
  have hmem : (⟨1, 500, 1, "c", true⟩ : BCluster) ∈ getBottleneckClusters kmlC8 objsC8 2 := by
    rw [heval]
    exact List.mem_cons_self _ _
  have h := (bottleneck_flag_sorted kmlC8 objsC8 2).2 _ hmem
  simpa using h

/-- Points built from an enumerated object list keep the objects' span ids in
order when the point constructor copies the span id of its object. -/
theorem map_span_of_enum_map (g : ℕ × WvObj → ScatterPoint)
    (hg : ∀ p, (g p).span_id = p.2.span_id) (l : List WvObj) :
    (l.enum.map g).map (fun p => p.span_id) = l.map (fun o => o.span_id) := by
  rw [List.map_map]
  have h1 : ((fun p : ScatterPoint => p.span_id) ∘ g) =
      fun p : ℕ × WvObj => p.2.span_id := funext hg
  rw [h1]
  have h2 : (fun p : ℕ × WvObj => p.2.span_id) =
      (fun o : WvObj => o.span_id) ∘ Prod.snd := rfl
  rw [h2, ← List.map_map, List.enum_map_snd]

/-- C9: fewer than 2 usable vectors yield an empty scatter; with n ≥ 2 usable
vectors the projector emits exactly n points carrying the objects' metadata
in input order; and when only one principal component is usable
(`n_components = 1`) every point's second coordinate is zero. -/
theorem projector_shape (pcaF : ℕ → List (List ℚ) → List (List ℚ))
    (objs : List WvObj) :
    ((usableObjs objs).length < 2 → getInputScatter pcaF objs = []) ∧
    (2 ≤ (usableObjs objs).length →
      (getInputScatter pcaF objs).length = (usableObjs objs).length ∧
      (getInputScatter pcaF objs).map (fun p => p.span_id) =
        (usableObjs objs).map (fun o => o.span_id) ∧
      (nComponentsOf ((usableObjs objs).map getVec) = 1 →
        ∀ p ∈ getInputScatter pcaF objs, p.y = 0)) := by
  constructor
  · intro hlen
    simp only [getInputScatter]
    by_cases hempty : objs.isEmpty
    · rw [if_pos hempty]
    · rw [if_neg hempty, if_pos hlen]
  · intro h2
    have hempty : ¬ (objs.isEmpty = true) := by
      cases objs with
      | nil => simp [usableObjs] at h2
      | cons a as => simp
    have hlen : ¬ (usableObjs objs).length < 2 := not_lt.mpr h2
    refine ⟨?_, ?_, ?_⟩
    · simp only [getInputScatter, if_neg hempty, if_neg hlen]
      simp [List.enum_length]
    · simp only [getInputScatter, if_neg hempty, if_neg hlen]
      exact map_span_of_enum_map _ (fun p => rfl) _
    · intro hnc p hp
      simp only [getInputScatter, if_neg hempty, if_neg hlen] at hp
      rcases List.mem_map.mp hp with ⟨q, _, hq⟩
      rw [← hq]
      show (if nComponentsOf ((usableObjs objs).map getVec) = 2
        then round4 (((pcaF (nComponentsOf ((usableObjs objs).map getVec))
          ((usableObjs objs).map getVec)).getD q.1 []).getD 1 0) else 0) = 0
      rw [hnc]
      norm_num

/-- C9 witness: three usable one-dimensional vectors give three ordered
points whose second coordinates are all zero. -/
theorem projector_shape_w :
    (getInputScatter pca0 objsC9).length = 3 ∧
    ∀ p ∈ getInputScatter pca0 objsC9, p.y = 0 := by
  have h := (projector_shape pca0 objsC9).2 (by decide)
  exact ⟨h.1.trans (by decide), h.2.2 (by decide)⟩

/-- C7 (amended): the coverage score is the covered-query count divided by
the number of query vectors, rounded to 4 decimals, and always lies in
[0, 1]; a query is counted covered exactly when its nearest-reference cosine
distance is below 0.5 (the `coveredCount` filter); with no reference vectors
the score is 0 and no query is counted covered. -/
theorem coverage_score_spec (d : List ℚ → List ℚ → ℚ)
    (pcaF : ℕ → List (List ℚ) → List (List ℚ)) (execs goldens : List WvObj) :
    (0 ≤ (getGoldenCoverage d pcaF execs goldens).coverage_score ∧
     (getGoldenCoverage d pcaF execs goldens).coverage_score ≤ 1) ∧
    ((usableObjs goldens).isEmpty = true →
      (getGoldenCoverage d pcaF execs goldens).coverage_score = 0 ∧
      coveredCount d (usableObjs execs) (usableObjs goldens) = 0) ∧
    ((usableObjs execs).isEmpty = false → (usableObjs goldens).isEmpty = false →
      (getGoldenCoverage d pcaF execs goldens).coverage_score =
        round4 ((coveredCount d (usableObjs execs) (usableObjs goldens) : ℚ) /
          ((usableObjs execs).length : ℚ))) := by
  by_cases he : (usableObjs execs).isEmpty
  · refine ⟨?_, ?_, ?_⟩
    · simp only [getGoldenCoverage, if_pos he]
      norm_num
    · intro hg
      refine ⟨by simp only [getGoldenCoverage, if_pos he], ?_⟩
      simp only [coveredCount, if_pos hg]
    · intro he' _
      rw [he] at he'
      cases he'
  · have hscore : (getGoldenCoverage d pcaF execs goldens).coverage_score =
        if (usableObjs goldens).isEmpty then 0
        else round4 ((coveredCount d (usableObjs execs) (usableObjs goldens) : ℚ) /
          ((usableObjs execs).length : ℚ)) := by
      simp only [getGoldenCoverage, if_neg he]
    refine ⟨?_, ?_, ?_⟩
    · rw [hscore]
      by_cases hg : (usableObjs goldens).isEmpty
      · rw [if_pos hg]
        norm_num
      · rw [if_neg hg]
        have hnonempty : 0 < (usableObjs execs).length := by
          cases hu : usableObjs execs with
          | nil => rw [hu] at he; exact absurd rfl he
          | cons a as => exact Nat.succ_pos _
        have hle : coveredCount d (usableObjs execs) (usableObjs goldens) ≤
            (usableObjs execs).length := by
          simp only [coveredCount, if_neg hg]
          exact List.length_filter_le _ _
        refine round4_unit ?_ ?_
        · positivity
        · rw [div_le_one (by exact_mod_cast hnonempty)]
          exact_mod_cast hle
    · intro hg
      refine ⟨?_, ?_⟩
      · rw [hscore, if_pos hg]
      · simp only [coveredCount, if_pos hg]
    · intro _ hg
      rw [hscore, if_neg (by rw [hg]; exact Bool.false_ne_true)]

/-- C7 counterexample: three usable query vectors against one reference,
exactly one covered.  The code reports `round4 (1/3) = 3333/10000`, which is
not `covered / |Q| = 1/3`: the claim's "equals covered / |Q|" fails on the
rounding the code applies. -/
theorem coverage_score_cex :
    (getGoldenCoverage unitCosDist pca0 execsC7 goldensC7).coverage_score = 3333/10000 ∧
    coveredCount unitCosDist (usableObjs execsC7) (usableObjs goldensC7) = 1 ∧
    (usableObjs execsC7).length = 3 ∧
    (3333/10000 : ℚ) ≠ 1/3 := by
  have hcov : coveredCount unitCosDist (usableObjs execsC7) (usableObjs goldensC7) = 1 := by
    norm_num [coveredCount, usableObjs, execsC7, goldensC7, usableVec, getVec,
      nearestGoldenDist, unitCosDist, dotProd, List.filter]
  refine ⟨?_, hcov, by decide, by norm_num⟩
  have he : ¬ ((usableObjs execsC7).isEmpty = true) := by decide
  have hgn : ¬ ((usableObjs goldensC7).isEmpty = true) := by decide
  simp only [getGoldenCoverage, if_neg he, if_neg hgn, hcov]
  norm_num [usableObjs, execsC7, usableVec, List.filter, round4, roundHalfEven]

/-- C7 witness: the amended rounded-ratio formula evaluated on the concrete
three-versus-one population. -/
theorem coverage_score_spec_w :
    (getGoldenCoverage unitCosDist pca0 execsC7 goldensC7).coverage_score =
      round4 ((coveredCount unitCosDist (usableObjs execsC7) (usableObjs goldensC7) : ℚ) /
        ((usableObjs execsC7).length : ℚ)) :=
  (coverage_score_spec unitCosDist pca0 execsC7 goldensC7).2.2 (by decide) (by decide)

/-- C5: every returned hallucination candidate stems from a scored object
whose mean k-nearest-neighbour distance strictly exceeds the caller's
threshold (no item at or below the threshold appears), the list is sorted
descending by the reported distance, and its length is at most the requested
limit. -/
theorem hallucination_candidates_spec (d : List ℚ → List ℚ → ℚ)
    (objs : List WvObj) (threshold : ℚ) (limit : ℕ) :
    (∀ r ∈ getHallucinationCandidates d objs threshold limit,
      ∃ p ∈ hallucinationScored d objs,
        threshold < p.2 ∧ r = mkHallucinationItem p.1 (round4 p.2)) ∧
    List.Sorted (descQRel (fun r : HallucinationItem => r.distance))
      (getHallucinationCandidates d objs threshold limit) ∧
    (getHallucinationCandidates d objs threshold limit).length ≤ limit := by
  by_cases h5 : (usableObjs objs).length < 5
  · simp only [getHallucinationCandidates, if_pos h5]
    exact ⟨fun r hr => absurd hr (List.not_mem_nil r), List.sorted_nil, by simp⟩
  · simp only [getHallucinationCandidates, if_neg h5]
    refine ⟨?_, ?_, ?_⟩
    · intro r hr
      have hr2 := List.take_subset _ _ hr
      rw [sortDescBy, List.mem_insertionSort] at hr2
      rcases List.mem_map.mp hr2 with ⟨p, hp, hpr⟩
      have hfil := List.mem_filter.mp hp
      refine ⟨p, hfil.1, ?_, hpr.symm⟩
      simpa using hfil.2
    · exact List.Pairwise.sublist (List.take_sublist _ _)
        (List.sorted_insertionSort _ _)
    · exact List.length_take_le _ _

/-- C10: whenever fewer than 5 fetched records carry a usable embedding
vector, the hallucination-candidate analysis returns the empty list,
whatever threshold and limit the caller supplied. -/
theorem hallucination_min_population (d : List ℚ → List ℚ → ℚ)
    (objs : List WvObj) (threshold : ℚ) (limit : ℕ)
    (h : (usableObjs objs).length < 5) :
    getHallucinationCandidates d objs threshold limit = [] := by
  simp only [getHallucinationCandidates, if_pos h]

/-- C10 witness: a single usable record yields the empty candidate list. -/
theorem hallucination_min_population_w :
    getHallucinationCandidates dAbs objsC10 (1/2) 3 = [] :=
  hallucination_min_population dAbs objsC10 (1/2) 3 (by decide)

/-- C5 witness: on five one-dimensional vectors with threshold 7/2, the
outlier item (mean k-NN distance 15/2) is in the output and traces back to a
scored object above the threshold. -/
theorem hallucination_candidates_spec_w :
    ∃ p ∈ hallucinationScored dAbs objsC5,
      (7/2 : ℚ) < p.2 ∧
      mkHallucinationItem (mkV 5 10) (round4 (15/2)) =
        mkHallucinationItem p.1 (round4 p.2) := by
  apply (hallucination_candidates_spec dAbs objsC5 (7/2) 20).1
  have hscored : hallucinationScored dAbs objsC5 =
      [(mkV 1 1, 15/4), (mkV 2 2, 3), (mkV 3 3, 11/4), (mkV 4 4, 3),
       (mkV 5 10, 15/2)] := by
    norm_num [hallucinationScored, usableObjs, objsC5, mkV, usableVec, getVec,
      meanKDist, ratMean, sortAscBy, List.insertionSort, List.orderedInsert,
      ascQRel, dAbs, List.filter, List.enum, List.enumFrom, List.isEmpty_cons]
    exact ⟨List.cons_ne_nil _ _, List.cons_ne_nil _ _, List.cons_ne_nil _ _,
      List.cons_ne_nil _ _, List.cons_ne_nil _ _⟩
  have heval : getHallucinationCandidates dAbs objsC5 (7/2) 20 =
      [mkHallucinationItem (mkV 5 10) (round4 (15/2)),
       mkHallucinationItem (mkV 1 1) (round4 (15/4))] := by
    have h5 : ¬ (usableObjs objsC5).length < 5 := by decide
    simp only [getHallucinationCandidates, if_neg h5, hscored]
    norm_num [sortDescBy, List.insertionSort, List.orderedInsert, descQRel,
      List.filter, mkHallucinationItem, mkV, round4, roundHalfEven]
  rw [heval]
  exact List.mem_cons_self _ _

/-- Field computation of `mkRecFinal`: the label. -/
theorem mkRecFinal_type (sIdx dIdx : List ℕ) (maxd : ℚ) (t : ℕ × WvObj × ℚ) :
    (mkRecFinal sIdx dIdx maxd t).candidate_type =
      if t.1 ∈ sIdx then "STEADY" else if t.1 ∈ dIdx then "DISCOVERY" else "" := rfl

/-- Field computation of `mkRecFinal`: the score. -/
theorem mkRecFinal_score (sIdx dIdx : List ℕ) (maxd : ℚ) (t : ℕ × WvObj × ℚ) :
    (mkRecFinal sIdx dIdx maxd t).score =
      if t.1 ∈ sIdx then round4 (1 - t.2.2 / maxd)
      else if t.1 ∈ dIdx then round4 (t.2.2 / maxd) else 0 := rfl

/-- Field computation of `mkRecFinal`: the reported distance. -/
theorem mkRecFinal_dist (sIdx dIdx : List ℕ) (maxd : ℚ) (t : ℕ × WvObj × ℚ) :
    (mkRecFinal sIdx dIdx maxd t).distance_to_nearest_golden = t.2.2 := rfl

/-- Composing the uuid projection with `mkRecFinal` yields the candidate's
own uuid key. -/
theorem uuid_comp_mkRecFinal (sIdx dIdx : List ℕ) (maxd : ℚ) :
    ((fun r : RecCandidate => r.uuid) ∘ mkRecFinal sIdx dIdx maxd) =
      (fun t : ℕ × WvObj × ℚ => t.2.1.uuid) := rfl

/-- C6 (amended): with a non-empty reference set the diversity
recommendation returns at most `limit` candidates with pairwise-distinct
uuids; every candidate is labelled STEADY or DISCOVERY; a STEADY candidate's
score is `round4 (1 − distance/maxdist)` and a DISCOVERY candidate's is
`round4 (distance/maxdist)` — an item selected by both the descending and
the ascending head is labelled STEADY (the steady labelling loop runs last
and overwrites the shared dict), and scores are rounded to 4 decimals. -/
theorem recommend_diversity_shape (d : List ℚ → List ℚ → ℚ)
    (execObjs goldenObjs : List WvObj) (limit : ℕ)
    (hg : ((usableObjs goldenObjs).map getVec).isEmpty = false) :
    (recommendWithDiversity d execObjs goldenObjs limit).length ≤ limit ∧
    ((recommendWithDiversity d execObjs goldenObjs limit).map
      (fun r => r.uuid)).Nodup ∧
    ∀ r ∈ recommendWithDiversity d execObjs goldenObjs limit,
      (r.candidate_type = "STEADY" ∨ r.candidate_type = "DISCOVERY") ∧
      (r.candidate_type = "STEADY" →
        r.score = round4 (1 - r.distance_to_nearest_golden /
          maxRDist (recCandidatesOf d ((usableObjs goldenObjs).map getVec)
            (usableObjs execObjs)))) ∧
      (r.candidate_type = "DISCOVERY" →
        r.score = round4 (r.distance_to_nearest_golden /
          maxRDist (recCandidatesOf d ((usableObjs goldenObjs).map getVec)
            (usableObjs execObjs)))) := by
  by_cases he : (usableObjs execObjs).isEmpty
  · simp only [recommendWithDiversity, if_pos he]
    exact ⟨Nat.zero_le _, by simp, fun r hr => absurd hr (List.not_mem_nil r)⟩
  · have hgneg : ¬ (((usableObjs goldenObjs).map getVec).isEmpty = true) := by
      rw [hg]
      exact Bool.false_ne_true
    simp only [recommendWithDiversity, if_neg he, if_neg hgneg]
    refine ⟨List.length_take_le _ _, ?_, ?_⟩
    · rw [List.map_take, List.map_map, uuid_comp_mkRecFinal]
      exact List.Nodup.sublist (List.take_sublist _ _) (dedupBy_nodup_keys _ _)
    · intro r hr
      have hr2 := List.take_subset _ _ hr
      rcases List.mem_map.mp hr2 with ⟨t, ht, htr⟩
      have htm := dedupBy_subset _ _ ht
      rw [← htr]
      by_cases hs : t.1 ∈ (steadySel d ((usableObjs goldenObjs).map getVec)
          (usableObjs execObjs) limit).map (fun x => x.1)
      · rw [mkRecFinal_type, if_pos hs]
        refine ⟨Or.inl rfl, fun _ => ?_, fun hdisc => absurd hdisc (by decide)⟩
        rw [mkRecFinal_score, if_pos hs, mkRecFinal_dist]
      · have hd : t.1 ∈ (discoverySel d ((usableObjs goldenObjs).map getVec)
            (usableObjs execObjs) limit).map (fun x => x.1) := by
          rcases List.mem_append.mp htm with h | h
          · exact List.mem_map_of_mem _ h
          · exact absurd (List.mem_map_of_mem _ h) hs
        rw [mkRecFinal_type, if_neg hs, if_pos hd]
        refine ⟨Or.inr rfl, fun hsteady => absurd hsteady (by decide), fun _ => ?_⟩
        rw [mkRecFinal_score, if_neg hs, if_pos hd, mkRecFinal_dist]

/-- C6 witness: the amended shape properties on the concrete
three-execution, one-reference population with limit 4. -/
theorem recommend_diversity_shape_w :
    ((recommendWithDiversity dTable execsC6 goldensC6 4).map
      (fun r => r.uuid)).Nodup ∧
    (recommendWithDiversity dTable execsC6 goldensC6 4).length ≤ 4 :=
  ⟨(recommend_diversity_shape dTable execsC6 goldensC6 4 (by decide)).2.1,
   (recommend_diversity_shape dTable execsC6 goldensC6 4 (by decide)).1⟩

/-- C6 counterexample: three candidates at distances 9/10, 1/2, 1/10 with
limit 4.  The middle candidate is selected by both the discovery and the
steady list; the code labels it STEADY (the steady loop overwrites the
shared dict), while the claim's
merge-keeping-the-first-occurrence labels it DISCOVERY; and the reported
scores are rounded to 4 decimals (8889/10000), not the exact
1 − distance/max (8/9). -/
theorem recommend_diversity_cex :
    ((recommendWithDiversity dTable execsC6 goldensC6 4).get? 1).map
        (fun r => r.candidate_type) = some "STEADY" ∧
    ((recommendClaimC6 dTable execsC6 goldensC6 4).get? 1).map
        (fun r => r.candidate_type) = some "DISCOVERY" ∧
    ((recommendWithDiversity dTable execsC6 goldensC6 4).get? 2).map
        (fun r => r.score) = some (8889/10000) ∧
    ((recommendClaimC6 dTable execsC6 goldensC6 4).get? 2).map
        (fun r => r.score) = some (8/9) ∧
    (8889/10000 : ℚ) ≠ 8/9 := by
  have hcands : recCandidatesOf dTable ((usableObjs goldensC6).map getVec)
      (usableObjs execsC6) =
      [(0, mkV 1 1, 9/10), (1, mkV 2 2, 1/2), (2, mkV 3 3, 1/10)] := by
    norm_num [recCandidatesOf, usableObjs, execsC6, goldensC6, mkV, usableVec,
      getVec, nearestGoldenDist, dTable, List.filter, List.enum, List.enumFrom,
      round4, roundHalfEven]
  have hdesc : sortDescBy (fun t : ℕ × WvObj × ℚ => t.2.2)
      [(0, mkV 1 1, 9/10), (1, mkV 2 2, 1/2), (2, mkV 3 3, 1/10)] =
      [(0, mkV 1 1, 9/10), (1, mkV 2 2, 1/2), (2, mkV 3 3, 1/10)] := by
    norm_num [sortDescBy, List.insertionSort, List.orderedInsert, descQRel]
  have hasc : sortAscBy (fun t : ℕ × WvObj × ℚ => t.2.2)
      [(0, mkV 1 1, 9/10), (1, mkV 2 2, 1/2), (2, mkV 3 3, 1/10)] =
      [(2, mkV 3 3, 1/10), (1, mkV 2 2, 1/2), (0, mkV 1 1, 9/10)] := by
    norm_num [sortAscBy, List.insertionSort, List.orderedInsert, ascQRel]
  have hdisc : discoverySel dTable ((usableObjs goldensC6).map getVec)
      (usableObjs execsC6) 4 = [(0, mkV 1 1, 9/10), (1, mkV 2 2, 1/2)] := by
    rw [discoverySel, hcands, hdesc]
    rfl
  have hsteady : steadySel dTable ((usableObjs goldensC6).map getVec)
      (usableObjs execsC6) 4 = [(2, mkV 3 3, 1/10), (1, mkV 2 2, 1/2)] := by
    rw [steadySel, hcands, hdesc, hasc]
    rfl
  have hmax : maxRDist (recCandidatesOf dTable ((usableObjs goldensC6).map getVec)
      (usableObjs execsC6)) = 9/10 := by
    rw [hcands]
    norm_num [maxRDist]
  have hcode : recommendWithDiversity dTable execsC6 goldensC6 4 =
      [⟨1, "", "", "", 0, 0, 9/10, "DISCOVERY", 1⟩,
       ⟨2, "", "", "", 0, 0, 1/2, "STEADY", 4444/10000⟩,
       ⟨3, "", "", "", 0, 0, 1/10, "STEADY", 8889/10000⟩] := by
    have he : ¬ ((usableObjs execsC6).isEmpty = true) := by decide
    have hgn : ¬ (((usableObjs goldensC6).map getVec).isEmpty = true) := by decide
    simp only [recommendWithDiversity, if_neg he, if_neg hgn, hdisc, hsteady, hmax]
    norm_num [dedupBy, mkRecFinal, mkV, round4, roundHalfEven, List.filter,
      List.take]
  have hspec : recommendClaimC6 dTable execsC6 goldensC6 4 =
      [⟨1, "", "", "", 0, 0, 9/10, "DISCOVERY", 1⟩,
       ⟨2, "", "", "", 0, 0, 1/2, "DISCOVERY", 5/9⟩,
       ⟨3, "", "", "", 0, 0, 1/10, "STEADY", 8/9⟩] := by
    have he : ¬ ((usableObjs execsC6).isEmpty = true) := by decide
    have hgn : ¬ (((usableObjs goldensC6).map getVec).isEmpty = true) := by decide
    simp only [recommendClaimC6, if_neg he, if_neg hgn, hcands, hdesc, hasc, hmax]
    norm_num [dedupBy, mkV, maxRDist, List.filter, List.take]
  rw [hcode, hspec]
  refine ⟨rfl, rfl, by norm_num, by norm_num, by norm_num⟩
